import Mathlib

/-
Shallow embedding of the yandex-money client library
(src/yandex-money/src/lib.rs, src/yandex-money/src/transport.rs).

Parameter maps (`HashMap<String, String>` in the source) are modelled as
functions from keys to optional values; `insert` overwrites.  JSON bodies
are modelled by an inductive `Json` type; the result of
`serde_json::from_str` on a response text is taken as input of type
`Option Json` (`none` standing for a body that is not valid JSON) since the
JSON grammar lives in serde_json, outside this repository.  Async calls are
modelled by passing the transport outcome of each HTTP request explicitly.
-/

namespace YandexMoney

/-- Model of `HashMap<String, String>`: a finite partial map, represented
extensionally as a function from keys to optional values. -/
abbrev HMap : Type := String → Option String

def HMap.empty : HMap := fun _ => none

/-- Model of `HashMap::insert`: the new binding overwrites any previous
binding of the same key. -/
def HMap.insert (m : HMap) (k v : String) : HMap :=
  fun q => if q = k then some v else m q

/-- Model of the loop `for (k, v) in other { params.insert(k, v) }`
(src/yandex-money/src/lib.rs, request_shop_payment).  A map has distinct
keys, so the iteration order is irrelevant and the loop computes the
right-biased union: a binding in `other` wins over one in `m`. -/
def HMap.insertAll (m other : HMap) : HMap :=
  fun q => match other q with
    | some v => some v
    | none => m q

/-- JSON values, the target of serde_json decoding. -/
inductive Json where
  | null
  | bool (b : Bool)
  | num (n : Int)
  | str (s : String)
  | arr (elems : List Json)
  | obj (fields : List (String × Json))

/-- Model of a response body after `serde_json::from_str`: `none` when the
body text is not valid JSON. -/
abbrev Body : Type := Option Json

/-- transport::Error (src/yandex-money/src/transport.rs, lines 10-20):
either a network-level failure or a JSON decoding failure.  The boxed
source errors are modelled by their message strings. -/
inductive TransportError where
  | NetworkError (msg : String)
  | ParseError (msg : String)
deriving DecidableEq

/-- Error (src/yandex-money/src/lib.rs, lines 30-44): the library error
taxonomy. -/
inductive Error where
  | TransportError (source : TransportError)
  | YandexError (description : String)
  | AuthorizationCallbackError (source : String)
deriving DecidableEq

/-- Rsp (src/yandex-money/src/transport.rs, lines 38-43): the untagged
two-shape response envelope. -/
inductive Rsp (T : Type) where
  | Error (error : String)
  | OK (v : T)
deriving DecidableEq

/-- Rsp::into_result (src/yandex-money/src/lib.rs, lines 46-54). -/
def Rsp.into_result {T : Type} : Rsp T → Except YandexMoney.Error T
  | .Error e => .error (.YandexError e)
  | .OK v => .ok v

/-- Structural detection of the error shape of the envelope: serde tries
the `Error { error: String }` variant of the untagged enum first, which
succeeds exactly when the value is an object whose `error` field is a
string (unknown fields are ignored). -/
def Json.errorField : Json → Option String
  | .obj fields =>
    match fields.lookup "error" with
    | some (.str s) => some s
    | _ => none
  | _ => none

/-- Untagged serde decoding of `Rsp<T>` given a decoder for `T`: the
`Error` variant is tried first, then `OK`; `none` when neither shape
matches. -/
def decodeRsp {T : Type} (decT : Json → Option T) (j : Json) : Option (Rsp T) :=
  match j.errorField with
  | some e => some (.Error e)
  | none => (decT j).map Rsp.OK

/-- Decoder used to instantiate the generic payload type T at a concrete
type in examples: the payload is a bare JSON string. -/
def decodeString : Json → Option String
  | .str s => some s
  | _ => none

/-- CallerWrapper::call (src/yandex-money/src/transport.rs, lines 150-163):
await the transport (a failure becomes NetworkError), then decode the body
with serde_json (an undecodable body becomes ParseError). -/
def CallerWrapper.call {T : Type} (decT : Json → Option T)
    (transport : Except String Body) : Except TransportError (Rsp T) :=
  match transport with
  | .error e => .error (.NetworkError e)
  | .ok none => .error (.ParseError "invalid JSON")
  | .ok (some j) =>
    match decodeRsp decT j with
    | some r => .ok r
    | none => .error (.ParseError "data did not match any variant of untagged enum Rsp")

/-- CallerWrapper::call_empty (src/yandex-money/src/transport.rs, lines
165-177): await the transport and discard the body entirely. -/
def CallerWrapper.call_empty (transport : Except String Body) :
    Except TransportError Unit :=
  match transport with
  | .error e => .error (.NetworkError e)
  | .ok _ => .ok ()

/-- The pattern `caller.call(...).await.context(TransportError)?.into_result()?`
used by every decoded endpoint (e.g. src/yandex-money/src/lib.rs, lines
249-256): transport errors are wrapped in Error::TransportError, then the
envelope is converted into a result. -/
def callAndResolve {T : Type} (decT : Json → Option T)
    (transport : Except String Body) : Except Error T :=
  match CallerWrapper.call decT transport with
  | .error e => .error (.TransportError e)
  | .ok rsp => rsp.into_result

/-- Client::revoke_token (src/yandex-money/src/lib.rs, lines 166-173):
`call_empty("api/revoke", ...)`, with transport errors wrapped in
Error::TransportError. -/
def Client.revoke_token (transport : Except String Body) : Except Error Unit :=
  match CallerWrapper.call_empty transport with
  | .error e => .error (.TransportError e)
  | .ok u => .ok u

/-- Modelled from the spec: the recipient identifier of a transfer
(src/yandex-money/src/models.rs is not under src/).  A tagged union over
numeric account id, email address and phone number; the phone number is
carried already in its canonical international form. -/
inductive UserId where
  | Account (id : Nat)
  | Email (addr : String)
  | Phone (canonical : String)

/-- Modelled from the spec: the Display rendering of a UserId used by
`to.to_string()` — numeric id as decimal, email as-is, phone in its
canonical international form. -/
def UserId.to_string : UserId → String
  | .Account id => toString id
  | .Email addr => addr
  | .Phone canonical => canonical

/-- BigDecimal amounts are modelled by their decimal string rendering, the
only view of them the parameter map uses. -/
abbrev BigDecimal : Type := String

/-- RequestAmount (declared in models.rs, matched on in
src/yandex-money/src/lib.rs lines 370-377): either the total charged to
the sender or the net amount due to the recipient. -/
inductive RequestAmount where
  | Total (amount : BigDecimal)
  | Net (amount_due : BigDecimal)

/-- PaymentRequest (src/yandex-money/src/lib.rs, lines 105-108): an unsent
parameter bag.  The caller field is supplied at send time as an explicit
transport function. -/
structure PaymentRequest where
  params : HMap

/-- PaymentRequest::send (src/yandex-money/src/lib.rs, lines 112-125):
posts the parameter map to the fixed endpoint "api/request-payment" and
resolves the envelope.  The response payload decoder and the transport
(endpoint and delivered parameters to outcome) are explicit. -/
def PaymentRequest.send {T : Type} (p : PaymentRequest) (decT : Json → Option T)
    (transport : String → HMap → Except String Body) : Except YandexMoney.Error T :=
  callAndResolve decT (transport "api/request-payment" p.params)

/-- TestPaymentRequest (src/yandex-money/src/lib.rs, lines 127-135). -/
structure TestPaymentRequest where
  inner : PaymentRequest

/-- TestPaymentRequest::send (src/yandex-money/src/lib.rs, lines 137-146):
inserts `test_payment` -> `true.to_string()` into the inner request's
parameters, then delegates to the inner send. -/
def TestPaymentRequest.send {T : Type} (t : TestPaymentRequest) (decT : Json → Option T)
    (transport : String → HMap → Except String Body) : Except YandexMoney.Error T :=
  PaymentRequest.send
    { params := t.inner.params.insert "test_payment" (toString true) }
    decT transport

/-- Client::request_shop_payment (src/yandex-money/src/lib.rs, lines
331-346): start from `pattern_id`, then insert every entry of `other`. -/
def Client.request_shop_payment (pattern_id : String) (other : HMap) :
    PaymentRequest :=
  { params := (HMap.empty.insert "pattern_id" pattern_id).insertAll other }

/-- Client::request_transfer (src/yandex-money/src/lib.rs, lines 349-390):
the fixed p2p parameter set, then the amount key chosen by the
RequestAmount variant, then the optional label.  `expire_period: u32` is a
Nat rendered in decimal; booleans render as "true"/"false".  The source
argument `to` is named `recipient` here because `to` is reserved in
Lean. -/
def Client.request_transfer (recipient : UserId) (amount : RequestAmount)
    (comment message : String) (label : Option String)
    (codepro hold_for_pickup : Bool) (expire_period : Nat) : PaymentRequest :=
  let params :=
    ((((((HMap.empty.insert "pattern_id" "p2p").insert
      "to" recipient.to_string).insert
      "comment" comment).insert
      "message" message).insert
      "codepro" (toString codepro)).insert
      "hold_for_pickup" (toString hold_for_pickup)).insert
      "expire_period" (toString expire_period)
  let params :=
    match amount with
    | .Total amount => params.insert "amount" amount
    | .Net amount_due => params.insert "amount_due" amount_due
  let params :=
    match label with
    | some v => params.insert "label" v
    | none => params
  { params := params }

/-- OperationHistoryResponse (declared in models.rs, consumed in
src/yandex-money/src/lib.rs lines 292-314): one page of history.  The
operation record type is a parameter — its fields are never inspected by
the pagination loop — and the NextRecord newtype wrapper around the u64
cursor is elided. -/
structure OperationHistoryResponse (α : Type) where
  operations : List α
  next_record : Option Nat

/-- Client::operation_history (src/yandex-money/src/lib.rs, lines 258-317):
the pagination loop of the stream, run against a scripted transport that
serves one `caller.call::<OperationHistoryResponse>` outcome per request,
in order.  Returns the items the stream yields and the list of
`start-record` cursor values sent, one per request issued.  An exhausted
script stands for a transport with no further response. -/
def operation_history {α : Type}
    (script : List (Except TransportError (Rsp (OperationHistoryResponse α))))
    (start_record : Nat) :
    List (Except YandexMoney.Error α) × List Nat :=
  match script with
  | [] =>
    ([.error (.TransportError (.NetworkError "no scripted response"))], [start_record])
  | r :: rest =>
    match r with
    | .error e => ([.error (.TransportError e)], [start_record])
    | .ok rsp =>
      match rsp.into_result with
      | .error e => ([.error e], [start_record])
      | .ok page =>
        if page.operations.isEmpty then
          ([], [start_record])
        else
          match page.next_record with
          | some v =>
            let next := operation_history rest v
            (page.operations.map Except.ok ++ next.1, start_record :: next.2)
          | none => (page.operations.map Except.ok, [start_record])

/-- TokenExchangeData (declared in models.rs, consumed in
src/yandex-money/src/lib.rs line 230): the token endpoint payload; only
the access_token field is read. -/
structure TokenExchangeData where
  access_token : String

/-- Scripted outside world of one authorization run: the outcome of the
`get_redirect("oauth/authorize", ...)` call, the caller-supplied callback,
and the outcome of the `call::<TokenExchangeData>("oauth/token", ...)`
call as a function of the code passed to it. -/
structure AuthWorld where
  redirect : Except TransportError String
  callback : String → Except String String
  token_call : String → Except TransportError (Rsp TokenExchangeData)

/-- UnauthorizedClient::authorize (src/yandex-money/src/lib.rs, lines
198-244): get the redirect address, hand it to the callback, then exchange
the returned code at the token endpoint.  The Bool records whether the
token-exchange call was issued. -/
def UnauthorizedClient.authorize (w : AuthWorld) :
    Except YandexMoney.Error String × Bool :=
  match w.redirect with
  | .error e => (.error (.TransportError e), false)
  | .ok redirect_addr =>
    match w.callback redirect_addr with
    | .error e => (.error (.AuthorizationCallbackError e), false)
    | .ok temp_token =>
      match w.token_call temp_token with
      | .error e => (.error (.TransportError e), true)
      | .ok rsp =>
        match rsp.into_result with
        | .error e => (.error e, true)
        | .ok token => (.ok token.access_token, true)

/-- Modelled from the spec: the named capabilities of the scope set
(AccessScope is declared in models.rs, which is not under src/). -/
inductive AccessScope where
  | AccountInfo
  | OperationHistory
  | PaymentP2P
deriving DecidableEq

/-- Modelled from the spec: the stable textual encoding of each capability
produced by `ron::ser::to_string` (src/yandex-money/src/lib.rs line 216). -/
def AccessScope.encoding : AccessScope → String
  | .AccountInfo => "account-info"
  | .OperationHistory => "operation-history"
  | .PaymentP2P => "payment-p2p"

/-- Model of itertools `join(" ")`: the separator is placed between
consecutive elements. -/
def joinSpace : List String → String
  | [] => ""
  | [a] => a
  | a :: b :: rest => a ++ " " ++ joinSpace (b :: rest)

/-- The "scope" parameter built by authorize (src/yandex-money/src/lib.rs
line 216): `access_scope.iter().map(ron).join(" ")`.  The HashSet yields
its elements in an iteration order the code does not fix; that order is
the argument list. -/
def scopeParam (iter_order : List AccessScope) : String :=
  joinSpace (iter_order.map AccessScope.encoding)

/-- An HTTP response as seen by get_redirect: its status code and its
Location header, if any. -/
structure HttpResponse where
  status : Nat
  location : Option String

/-- The custom reqwest redirect policy installed by get_redirect
(src/yandex-money/src/transport.rs, lines 111-118): store the redirect
target URL in the shared cell and stop.  Returns the cell content and
whether the policy chooses to follow the redirect (it never does:
`attempt.stop()`). -/
def redirect_policy (url : String) : Option String × Bool :=
  (some url, false)

/-- Outcome of RemoteCaller::get_redirect: the captured URL, a transport
error, or the `.expect(...)` panic on an empty cell. -/
inductive RedirectResult where
  | ok (url : String)
  | network_error (msg : String)
  | panicked (msg : String)
deriving DecidableEq

/-- The redirect statuses for which reqwest consults the redirect policy;
the policy only runs when the response carries a Location header. -/
def redirectStatuses : List Nat := [301, 302, 303, 307, 308]

/-- RemoteCaller::get_redirect (src/yandex-money/src/transport.rs, lines
103-141) applied to the response of its single POST: the policy fills the
shared cell on a redirect response, then status 302 returns the cell
(panicking if it is empty) and any other status is an error naming the
status. -/
def RemoteCaller.get_redirect (rsp : HttpResponse) : RedirectResult :=
  let cell : Option String :=
    if rsp.status ∈ redirectStatuses then
      match rsp.location with
      | some l => (redirect_policy l).1
      | none => none
    else none
  if rsp.status = 302 then
    match cell with
    | some l => .ok l
    | none => .panicked "always filled by redirect policy; qed"
  else
    .network_error ("Unexpected status code: " ++ toString rsp.status)

/-- CallerWrapper::get_redirect (src/yandex-money/src/transport.rs, lines
179-187): wrap the remote caller failure as NetworkError.  `none` models
the panic, which never returns a value. -/
def CallerWrapper.get_redirect (rsp : HttpResponse) :
    Option (Except TransportError String) :=
  match RemoteCaller.get_redirect rsp with
  | .ok url => some (.ok url)
  | .network_error m => some (.error (.NetworkError m))
  | .panicked _ => none

/-- C2: envelope decoding produces exactly one of three mutually exclusive
outcomes — a body whose `error` field is the string `s` yields the remote
rejection YandexError carrying `s` verbatim; a body with no error field
that the success decoder accepts yields the payload; a body that is not
valid JSON, or matches neither shape, yields a ParseError, which is a
different constructor from the remote rejection and from success. -/
theorem envelope_decoding_trichotomy {T : Type} (decT : Json → Option T) :
    (∀ (s : String) (fields : List (String × Json)),
      fields.lookup "error" = some (Json.str s) →
      callAndResolve decT (Except.ok (some (Json.obj fields)))
        = Except.error (Error.YandexError s))
    ∧ (∀ (j : Json) (v : T), j.errorField = none → decT j = some v →
      callAndResolve decT (Except.ok (some j)) = Except.ok v)
    ∧ (callAndResolve decT (Except.ok none)
        = Except.error (Error.TransportError (TransportError.ParseError "invalid JSON")))
    ∧ (∀ j : Json, j.errorField = none → decT j = none →
      callAndResolve decT (Except.ok (some j))
        = Except.error (Error.TransportError (TransportError.ParseError
            "data did not match any variant of untagged enum Rsp")))
    ∧ (∀ (d m : String) (v : T),
      (Except.error (Error.YandexError d) : Except YandexMoney.Error T)
          ≠ Except.error (Error.TransportError (TransportError.ParseError m))
        ∧ Except.error (Error.YandexError d) ≠ Except.ok v
        ∧ (Except.error (Error.TransportError (TransportError.ParseError m))
            : Except YandexMoney.Error T) ≠ Except.ok v) := by
  refine ⟨?_, ?_, rfl, ?_, ?_⟩
  · intro s fields h
    simp [callAndResolve, CallerWrapper.call, decodeRsp, Json.errorField, h, Rsp.into_result]
  · intro j v he hd
    simp [callAndResolve, CallerWrapper.call, decodeRsp, he, hd, Rsp.into_result]
  · intro j he hd
    simp [callAndResolve, CallerWrapper.call, decodeRsp, he, hd]
  · exact fun d m v => ⟨by simp, by simp, by simp⟩

/-- Witness for C2 at concrete bodies, with the payload type instantiated
to a bare JSON string. -/
theorem envelope_decoding_trichotomy_witness :
    callAndResolve decodeString (Except.ok (some (Json.obj [("error", Json.str "oops")])))
      = Except.error (Error.YandexError "oops")
    ∧ callAndResolve decodeString (Except.ok (some (Json.str "payload")))
      = Except.ok "payload"
    ∧ callAndResolve decodeString (Except.ok none)
      = Except.error (Error.TransportError (TransportError.ParseError "invalid JSON")) :=
  ⟨(envelope_decoding_trichotomy decodeString).1 "oops" [("error", Json.str "oops")] rfl,
   (envelope_decoding_trichotomy decodeString).2.1 (Json.str "payload") "payload" rfl rfl,
   (envelope_decoding_trichotomy decodeString).2.2.1⟩

/-- C3: the parameter map built by request_transfer carries the key
`amount` (with the stringified amount) and no `amount_due` key when the
RequestAmount variant is Total, and the key `amount_due` and no `amount`
key when the variant is Net. -/
theorem request_transfer_amount_key (recipient : UserId)
    (comment message : String) (label : Option String)
    (codepro hold_for_pickup : Bool) (expire_period : Nat) (a : BigDecimal) :
    ((Client.request_transfer recipient (RequestAmount.Total a) comment message label
        codepro hold_for_pickup expire_period).params "amount" = some a
      ∧ (Client.request_transfer recipient (RequestAmount.Total a) comment message label
        codepro hold_for_pickup expire_period).params "amount_due" = none)
    ∧ ((Client.request_transfer recipient (RequestAmount.Net a) comment message label
        codepro hold_for_pickup expire_period).params "amount_due" = some a
      ∧ (Client.request_transfer recipient (RequestAmount.Net a) comment message label
        codepro hold_for_pickup expire_period).params "amount" = none) := by
  cases label <;>
    simp [Client.request_transfer, HMap.insert, HMap.empty]

/-- C5: when the caller-supplied callback fails, authorize returns
AuthorizationCallbackError carrying the callback failure and the
token-exchange call is not issued; the exchange is attempted only after
the callback has returned a code successfully. -/
theorem authorize_callback_failure (w : AuthWorld) :
    (∀ addr err, w.redirect = Except.ok addr → w.callback addr = Except.error err →
      UnauthorizedClient.authorize w
        = (Except.error (Error.AuthorizationCallbackError err), false))
    ∧ ((UnauthorizedClient.authorize w).2 = true →
      ∃ addr code, w.redirect = Except.ok addr ∧ w.callback addr = Except.ok code) := by
  constructor
  · intro addr err h1 h2
    simp [UnauthorizedClient.authorize, h1, h2]
  · intro h
    cases hr : w.redirect with
    | error e => simp [UnauthorizedClient.authorize, hr] at h
    | ok addr =>
      cases hc : w.callback addr with
      | error e => simp [UnauthorizedClient.authorize, hr, hc] at h
      | ok code => exact ⟨addr, code, rfl, hc⟩

/-- Witness for C5: a run whose callback rejects the redirect address. -/
theorem authorize_callback_failure_witness :
    UnauthorizedClient.authorize
        ⟨Except.ok "https://money.yandex.ru/oauth", fun _ => Except.error "no code in url",
         fun _ => Except.error (TransportError.NetworkError "unreachable")⟩
      = (Except.error (Error.AuthorizationCallbackError "no code in url"), false) :=
  (authorize_callback_failure _).1 "https://money.yandex.ru/oauth" "no code in url" rfl rfl

/-- C6 counterexample: a well-formed error envelope returned with a
success HTTP status by the revoke endpoint is reported as success, while
the envelope decoder classifies the very same body as the Error shape —
the revoke response is not decoded through the envelope. -/
theorem revoke_token_reports_error_body_as_success :
    Client.revoke_token (Except.ok (some (Json.obj [("error", Json.str "invalid_token")])))
      = Except.ok ()
    ∧ decodeRsp (fun _ => some ()) (Json.obj [("error", Json.str "invalid_token")])
      = some (Rsp.Error "invalid_token") :=
  ⟨rfl, rfl⟩

/-- C6 amended: revoke_token goes through call_empty, which discards the
response body entirely: every transport-successful call is reported as
success no matter the body, and only a transport-level failure surfaces,
as a NetworkError. -/
theorem revoke_token_skips_envelope (body : Body) (e : String) :
    Client.revoke_token (Except.ok body) = Except.ok ()
    ∧ Client.revoke_token (Except.error e)
      = Except.error (Error.TransportError (TransportError.NetworkError e)) :=
  ⟨rfl, rfl⟩

/-- C8: TestPaymentRequest::send sends exactly the inner parameter map
with the single added binding test_payment -> "true": it delegates to the
inner send on that updated map, the added key reads "true", and every
other key is unchanged. -/
theorem test_payment_request_send {T : Type} (decT : Json → Option T)
    (transport : String → HMap → Except String Body) (inner : PaymentRequest) :
    TestPaymentRequest.send ⟨inner⟩ decT transport
      = PaymentRequest.send ⟨inner.params.insert "test_payment" (toString true)⟩ decT transport
    ∧ (inner.params.insert "test_payment" (toString true)) "test_payment" = some "true"
    ∧ ∀ k, k ≠ "test_payment" →
      (inner.params.insert "test_payment" (toString true)) k = inner.params k := by
  refine ⟨rfl, rfl, ?_⟩
  intro k hk
  simp [HMap.insert, hk]

/-- Witness for C8 at a concrete inner parameter map. -/
theorem test_payment_request_send_witness :
    ((HMap.empty.insert "pattern_id" "p2p").insert "test_payment" (toString true))
        "test_payment" = some "true"
    ∧ ((HMap.empty.insert "pattern_id" "p2p").insert "test_payment" (toString true))
        "pattern_id" = (HMap.empty.insert "pattern_id" "p2p") "pattern_id" :=
  ⟨(test_payment_request_send decodeString (fun _ _ => Except.ok none)
      ⟨HMap.empty.insert "pattern_id" "p2p"⟩).2.1,
   (test_payment_request_send decodeString (fun _ _ => Except.ok none)
      ⟨HMap.empty.insert "pattern_id" "p2p"⟩).2.2 "pattern_id" (by decide)⟩

/-- C9: get_redirect returns the captured redirect target when the single
response has status 302 and a Location header, fails with a NetworkError
naming the status for any other status, and its redirect policy stores
the target and stops — it never follows the redirect. -/
theorem get_redirect_behavior (rsp : HttpResponse) :
    (∀ l, rsp.status = 302 → rsp.location = some l →
      CallerWrapper.get_redirect rsp = some (Except.ok l))
    ∧ (rsp.status ≠ 302 →
      CallerWrapper.get_redirect rsp
        = some (Except.error (TransportError.NetworkError
            ("Unexpected status code: " ++ toString rsp.status))))
    ∧ (∀ url, (redirect_policy url).2 = false) := by
  obtain ⟨st, loc⟩ := rsp
  refine ⟨?_, ?_, fun _ => rfl⟩
  · rintro l rfl rfl
    simp [CallerWrapper.get_redirect, RemoteCaller.get_redirect, redirect_policy,
      redirectStatuses]
  · intro h
    simp [CallerWrapper.get_redirect, RemoteCaller.get_redirect, h]

/-- Witness for C9: a 302 response with a Location target, and a 404
response. -/
theorem get_redirect_behavior_witness :
    CallerWrapper.get_redirect ⟨302, some "https://money.yandex.ru/cb"⟩
      = some (Except.ok "https://money.yandex.ru/cb")
    ∧ CallerWrapper.get_redirect ⟨404, none⟩
      = some (Except.error (TransportError.NetworkError
          ("Unexpected status code: " ++ toString (404 : Nat)))) :=
  ⟨(get_redirect_behavior ⟨302, some "https://money.yandex.ru/cb"⟩).1
      "https://money.yandex.ru/cb" rfl rfl,
   (get_redirect_behavior ⟨404, none⟩).2.1 (by decide)⟩

/-- C10: in request_shop_payment the extras are merged after pattern_id is
inserted, so an extra binding of "pattern_id" overwrites the argument;
otherwise the map is exactly the extras plus the pattern_id binding. -/
theorem request_shop_payment_merge (pattern_id : String) (other : HMap) :
    (∀ v, other "pattern_id" = some v →
      (Client.request_shop_payment pattern_id other).params "pattern_id" = some v)
    ∧ (other "pattern_id" = none →
      (Client.request_shop_payment pattern_id other).params "pattern_id" = some pattern_id)
    ∧ (∀ k, k ≠ "pattern_id" →
      (Client.request_shop_payment pattern_id other).params k = other k) := by
  refine ⟨?_, ?_, ?_⟩
  · intro v h
    simp [Client.request_shop_payment, HMap.insertAll, HMap.insert, HMap.empty, h]
  · intro h
    simp [Client.request_shop_payment, HMap.insertAll, HMap.insert, HMap.empty, h]
  · intro k hk
    cases h : other k <;>
      simp [Client.request_shop_payment, HMap.insertAll, HMap.insert, HMap.empty, h, hk]

/-- Witness for C10: an extras map that overrides pattern_id, and one that
does not. -/
theorem request_shop_payment_merge_witness :
    (Client.request_shop_payment "base" (HMap.empty.insert "pattern_id" "override")).params
        "pattern_id" = some "override"
    ∧ (Client.request_shop_payment "base" (HMap.empty.insert "sum" "10")).params
        "pattern_id" = some "base"
    ∧ (Client.request_shop_payment "base" (HMap.empty.insert "sum" "10")).params
        "sum" = (HMap.empty.insert "sum" "10") "sum" :=
  ⟨(request_shop_payment_merge "base" (HMap.empty.insert "pattern_id" "override")).1
      "override" rfl,
   (request_shop_payment_merge "base" (HMap.empty.insert "sum" "10")).2.1 rfl,
   (request_shop_payment_merge "base" (HMap.empty.insert "sum" "10")).2.2 "sum" (by decide)⟩

/-- C1: the operation-history stream issues a history call per page with
the current cursor; an empty page terminates immediately with no further
request whatever cursor the page carries; a non-empty page yields its
operations in response order and then either advances the cursor to the
next-record value and continues, or terminates when there is none.  In
particular for pages [P1 with next 5, P2 with next none] it yields all of
P1 then all of P2 in order, having sent exactly the cursors [c, 5]. -/
theorem operation_history_pagination {α : Type}
    (rest rest2 : List (Except TransportError (Rsp (OperationHistoryResponse α))))
    (p1ops p2ops : List α) (n c : Nat) :
    (p1ops ≠ [] →
      operation_history
          (Except.ok (Rsp.OK ⟨p1ops, some n⟩) :: Except.ok (Rsp.OK ⟨p2ops, none⟩) :: rest) c
        = ((p1ops ++ p2ops).map Except.ok, [c, n]))
    ∧ (∀ nr : Option Nat,
      operation_history (Except.ok (Rsp.OK ⟨[], nr⟩) :: rest2) c = ([], [c]))
    ∧ (p2ops ≠ [] →
      operation_history (Except.ok (Rsp.OK ⟨p2ops, none⟩) :: rest2) c
        = (p2ops.map Except.ok, [c]))
    ∧ (p1ops ≠ [] →
      operation_history (Except.ok (Rsp.OK ⟨p1ops, some n⟩) :: rest2) c
        = (p1ops.map Except.ok ++ (operation_history rest2 n).1,
           c :: (operation_history rest2 n).2)) := by
  refine ⟨?_, fun nr => rfl, ?_, ?_⟩
  · intro h1
    obtain ⟨a, as, rfl⟩ := List.exists_cons_of_ne_nil h1
    cases p2ops with
    | nil => simp [operation_history, Rsp.into_result]
    | cons b bs => simp [operation_history, Rsp.into_result]
  · intro h2
    obtain ⟨b, bs, rfl⟩ := List.exists_cons_of_ne_nil h2
    rfl
  · intro h1
    obtain ⟨a, as, rfl⟩ := List.exists_cons_of_ne_nil h1
    rfl

/-- Witness for C1: a two-page script whose first page yields 10 and 11
and points at cursor 5, and whose second page yields 12 and carries no
next cursor; and a script whose first page is empty. -/
theorem operation_history_pagination_witness :
    operation_history
        [Except.ok (Rsp.OK ⟨[10, 11], some 5⟩), Except.ok (Rsp.OK ⟨[12], none⟩)] 0
      = (([10, 11] ++ [12]).map Except.ok, [0, 5])
    ∧ operation_history [Except.ok (Rsp.OK ⟨([] : List Nat), some 5⟩)] 0 = ([], [0]) :=
  ⟨(operation_history_pagination [] [] [10, 11] [12] 5 0).1 (by decide),
   (operation_history_pagination ([] : List _) [] [10, 11] [12] 5 0).2.1 (some 5)⟩

/-- C4: the parameter map built by request_transfer is exactly the 4.3
parameter set — pattern id "p2p", the stringified recipient, comment,
message, the codepro / hold_for_pickup / expire_period renderings, the
amount key selected by the RequestAmount variant — plus the label exactly
when one is supplied, and nothing else; send then delivers this map
unchanged to "api/request-payment". -/
theorem request_transfer_exact_params (recipient : UserId) (amount : RequestAmount)
    (comment message : String) (label : Option String)
    (codepro hold_for_pickup : Bool) (expire_period : Nat) (k : String) :
    (Client.request_transfer recipient amount comment message label codepro
        hold_for_pickup expire_period).params k
      = (if k = "label" then label
         else if k = "amount" then
           (match amount with
            | RequestAmount.Total a => some a
            | RequestAmount.Net _ => none)
         else if k = "amount_due" then
           (match amount with
            | RequestAmount.Net a => some a
            | RequestAmount.Total _ => none)
         else if k = "expire_period" then some (toString expire_period)
         else if k = "hold_for_pickup" then some (toString hold_for_pickup)
         else if k = "codepro" then some (toString codepro)
         else if k = "message" then some message
         else if k = "comment" then some comment
         else if k = "to" then some recipient.to_string
         else if k = "pattern_id" then some "p2p"
         else none) := by
  cases amount with
  | Total a =>
    cases label with
    | none =>
      by_cases h0 : k = "label"
      · subst h0; simp [Client.request_transfer, HMap.insert, HMap.empty]
      · by_cases h1 : k = "amount_due"
        · subst h1; simp [Client.request_transfer, HMap.insert, HMap.empty]
        · simp [Client.request_transfer, HMap.insert, HMap.empty, h0, h1]
    | some v =>
      by_cases h1 : k = "amount_due"
      · subst h1; simp [Client.request_transfer, HMap.insert, HMap.empty]
      · simp [Client.request_transfer, HMap.insert, HMap.empty, h1]
  | Net a =>
    cases label with
    | none =>
      by_cases h0 : k = "label"
      · subst h0; simp [Client.request_transfer, HMap.insert, HMap.empty]
      · by_cases h1 : k = "amount"
        · subst h1; simp [Client.request_transfer, HMap.insert, HMap.empty]
        · simp [Client.request_transfer, HMap.insert, HMap.empty, h0, h1]
    | some v =>
      by_cases h1 : k = "amount"
      · subst h1; simp [Client.request_transfer, HMap.insert, HMap.empty]
      · simp [Client.request_transfer, HMap.insert, HMap.empty, h1]

/-- C7 counterexample: the scope parameter is not a function of the scope
set alone — the two iteration orders of the same two-element set produce
different joined strings, so two runs of authorize with the same set need
not send the same scope string. -/
theorem scope_param_not_order_invariant :
    ([AccessScope.AccountInfo, AccessScope.OperationHistory] : List AccessScope).Perm
      [AccessScope.OperationHistory, AccessScope.AccountInfo]
    ∧ scopeParam [AccessScope.AccountInfo, AccessScope.OperationHistory]
      ≠ scopeParam [AccessScope.OperationHistory, AccessScope.AccountInfo] :=
  ⟨List.Perm.swap AccessScope.OperationHistory AccessScope.AccountInfo [], by decide⟩

/-- C7 amended: the scope parameter is the capability encodings joined by
single spaces in the iteration order of the HashSet, an order the code
does not fix; the joined string is therefore reproducible across runs
only for scope sets with at most one element. -/
theorem scope_param_iteration_order (order1 order2 : List AccessScope) :
    scopeParam [] = ""
    ∧ (∀ s, scopeParam [s] = AccessScope.encoding s)
    ∧ (∀ s t rest, scopeParam (s :: t :: rest)
        = AccessScope.encoding s ++ " " ++ scopeParam (t :: rest))
    ∧ (order1.Perm order2 → order1.length ≤ 1 → scopeParam order1 = scopeParam order2) := by
  refine ⟨rfl, fun s => rfl, fun s t rest => rfl, ?_⟩
  intro hperm hlen
  cases order1 with
  | nil => rw [hperm.symm.eq_nil]
  | cons a l =>
    cases l with
    | nil => rw [(List.singleton_perm.mp hperm)]
    | cons b m => simp at hlen


/-- Witness for C7 at a singleton scope set, whose only iteration order is
itself. -/
theorem scope_param_iteration_order_witness :
    scopeParam [AccessScope.PaymentP2P] = AccessScope.encoding AccessScope.PaymentP2P
    ∧ scopeParam [AccessScope.PaymentP2P] = scopeParam [AccessScope.PaymentP2P] :=
  ⟨(scope_param_iteration_order [] []).2.1 AccessScope.PaymentP2P,
   (scope_param_iteration_order [AccessScope.PaymentP2P] [AccessScope.PaymentP2P]).2.2.2
     (List.Perm.refl _) (by decide)⟩

end YandexMoney
